import Mathlib

/-!
Verification development for the AI Property Management and Description
Generator (single Python source file).  The definitions below are a shallow
embedding of the generator logic: the row normalizer of
InteractiveParser.clean_and_process, the prompt builder and temperature
schedule of generate_with_groq, the retry loop of the API client, the
template fallback generate_fallback, and the orchestrator
generate_description, together with the JSON export document built in
show_single_property_generator.

Modelling conventions:
* Python float arithmetic on the temperature schedule is embedded as exact
  rational arithmetic.  At every variation seed the branch decisions and the
  comparison against 1.0 agree between IEEE double arithmetic and rationals
  (at seed 4 both give exactly 1.0, and every wrapped value is at most 0.9).
* JSON values produced by json.loads are embedded as the inductive type
  Json below; the text-level json.dumps/json.loads pair is treated as the
  identity bridge on such trees.
* Monetary amounts on the single-property form path are integers, matching
  the Streamlit number inputs that feed generate_fallback and the prompt.
* Strings use ASCII case conventions for lower/title casing.
-/

/-- Number: the JSON value universe returned by json.loads. -/
inductive Json where
  | null : Json
  | bool : Bool → Json
  | num : ℚ → Json
  | str : String → Json
  | arr : List Json → Json
  | obj : List (String × Json) → Json

/-- Python truthiness of a parsed JSON value: None, False, 0, empty string,
empty list and empty dict are falsy, everything else is truthy. -/
def jtruthy : Json → Bool
  | .null => false
  | .bool b => b
  | .num q => q != 0
  | .str s => s != ""
  | .arr xs => !xs.isEmpty
  | .obj fs => !fs.isEmpty

/-- Field lookup in a JSON object, mirroring dict subscription. -/
def jlookup : Json → String → Option Json
  | .obj fs, k => fs.lookup k
  | _, _ => none

/-- Reads a JSON string value. -/
def asStr : Json → Option String
  | .str s => some s
  | _ => none

/-- Reads each element of a JSON list as a string. -/
def strListM : List Json → Option (List String)
  | [] => some []
  | j :: js => do
    let s ← asStr j
    let rest ← strListM js
    pure (s :: rest)

/-- Reads a JSON array of strings. -/
def asStrList : Json → Option (List String)
  | .arr xs => strListM xs
  | _ => none

/-- ContentRecord: the 7-field structured marketing copy output produced by
the fallback generator and expected from the remote model. -/
structure ContentRecord where
  title : String
  teaser_text : String
  full_description : String
  bullet_points : List String
  seo_keywords : List String
  meta_title : String
  meta_description : String
deriving DecidableEq

/-- Encodes a ContentRecord as the JSON object shape used throughout the
source (dict with exactly the 7 content keys). -/
def contentToJson (r : ContentRecord) : Json :=
  .obj
    [ ("title", .str r.title)
    , ("teaser_text", .str r.teaser_text)
    , ("full_description", .str r.full_description)
    , ("bullet_points", .arr (r.bullet_points.map Json.str))
    , ("seo_keywords", .arr (r.seo_keywords.map Json.str))
    , ("meta_title", .str r.meta_title)
    , ("meta_description", .str r.meta_description) ]

/-- Reads a ContentRecord back from a JSON object by field access, the way
the display and export code reads result fields. -/
def decodeContentJson (j : Json) : Option ContentRecord := do
  let title ← (jlookup j "title").bind asStr
  let teaser ← (jlookup j "teaser_text").bind asStr
  let full ← (jlookup j "full_description").bind asStr
  let bullets ← (jlookup j "bullet_points").bind asStrList
  let keywords ← (jlookup j "seo_keywords").bind asStrList
  let mtitle ← (jlookup j "meta_title").bind asStr
  let mdesc ← (jlookup j "meta_description").bind asStr
  pure ⟨title, teaser, full, bullets, keywords, mtitle, mdesc⟩

/-- PropertyRecord: the property_data dict on the single-property generator
path.  Optional integers model keys whose value may be missing or None; empty
strings model the default of dict.get with an empty-string fallback. -/
structure PropertyRecord where
  property_type : String
  bhk : String
  area_sqft : Int
  city : String
  locality : String
  landmark : String
  district : String
  state : String
  pincode : String
  floor_no : Option Int
  total_floors : Option Int
  furnishing_status : String
  rent_amount : Int
  deposit_amount : Int
  available_from : String
  preferred_tenants : String
  amenities : List String
  rough_description : String
  nearby_points : List String
  maintenance : Int
  water_supply : List String
  water_availability : String
deriving DecidableEq

/-- Groups the reversed decimal digit list into blocks of three separated by
commas, as the Python thousands-separator format specifier does. -/
def groupRev : List Char → List Char
  | a :: b :: c :: d :: rest => a :: b :: c :: ',' :: groupRev (d :: rest)
  | l => l

/-- Characters of a Python string, used where the source manipulates the
response text with replace and strip. -/
abbrev Chars := List Char

/-- Pattern test at the head of a character list. -/
def isPre : Chars → Chars → Bool
  | [], _ => true
  | _ :: _, [] => false
  | p :: ps, c :: cs => p == c && isPre ps cs

/-- Occurrence test for a pattern anywhere in a character list. -/
def occursIn (pat : Chars) : Chars → Bool
  | [] => isPre pat []
  | c :: cs => isPre pat (c :: cs) || occursIn pat cs

/-- Python str.replace with an empty replacement: deletes every
non-overlapping occurrence of the pattern, scanning left to right. -/
def pyRemove (pat : Chars) : Chars → Chars
  | [] => []
  | c :: cs =>
    if pat.length ≠ 0 ∧ isPre pat (c :: cs) = true then
      pyRemove pat (cs.drop (pat.length - 1))
    else c :: pyRemove pat cs
termination_by l => l.length
decreasing_by
  · simp only [List.length_cons, List.length_drop]
    omega
  · simp [List.length_cons]

/-- Python str.strip: removes leading and trailing whitespace. -/
def pyStrip (l : Chars) : Chars :=
  ((l.dropWhile Char.isWhitespace).reverse.dropWhile Char.isWhitespace).reverse

/-- Python str.strip on strings. -/
def pyStripStr (s : String) : String := String.mk (pyStrip s.toList)

/-- Python str.lower on ASCII text. -/
def pyLower (s : String) : String := String.mk (s.toList.map Char.toLower)

/-- Splitting state machine for str.split at commas. -/
def pySplitCommaGo : Chars → Chars → List String
  | acc, [] => [String.mk acc.reverse]
  | acc, c :: cs =>
    if c = ',' then String.mk acc.reverse :: pySplitCommaGo [] cs
    else pySplitCommaGo (c :: acc) cs

/-- Python str.split on a comma: splits at every comma, keeping empty
tokens, in input order. -/
def pySplitComma (s : String) : List String := pySplitCommaGo [] s.toList

/-- Thousands-separated rendering of an integer, mirroring the comma format
specifier applied to the rent, deposit and maintenance amounts. -/
def formatComma (n : Int) : String :=
  (if n < 0 then "-" else "") ++
    String.mk (groupRev (toString n.natAbs).toList.reverse).reverse

/-- Title-casing state machine over characters: an alphabetic character is
uppercased after a non-alphabetic character and lowercased otherwise,
mirroring str.title on ASCII text. -/
def pyTitleGo : Bool → List Char → List Char
  | _, [] => []
  | prevAlpha, c :: cs =>
    (if c.isAlpha then (if prevAlpha then c.toLower else c.toUpper) else c)
      :: pyTitleGo c.isAlpha cs

/-- Python str.title on ASCII text. -/
def pyTitle (s : String) : String := String.mk (pyTitleGo false s.toList)

/-- generate_fallback: template-based content generation.  Every field is a
fixed string template over the record fields; the rough description, when
present, is appended to the full description. -/
def generate_fallback (pd : PropertyRecord) : ContentRecord :=
  let bhk := pd.bhk
  let prop_type := pyTitle pd.property_type
  let locality := pd.locality
  let city := pd.city
  let area := toString pd.area_sqft
  let rent := formatComma pd.rent_amount
  let furnishing := pyTitle pd.furnishing_status
  let rough_desc := pyStripStr pd.rough_description
  let extra_info := if rough_desc = "" then "" else " " ++ rough_desc
  { title := "Spacious " ++ bhk ++ " BHK " ++ prop_type ++ " for Rent in " ++ locality
  , teaser_text := "Well-maintained " ++ bhk ++ " BHK " ++ prop_type ++
      " in prime " ++ locality ++ " location"
  , full_description := "Looking for a comfortable home? This beautiful " ++ bhk ++
      " BHK " ++ prop_type ++ " in " ++ locality ++ ", " ++ city ++
      " is perfect for you. Spread across " ++ area ++ " sqft, this " ++
      furnishing ++ " furnished property offers great value at ₹" ++ rent ++
      "/month. Located in a well-connected area with easy access to essential amenities." ++
      extra_info
  , bullet_points :=
      [ bhk ++ " BHK configuration with " ++ area ++ " sqft carpet area"
      , furnishing ++ " furnished with modern fittings"
      , "Monthly rent: ₹" ++ rent ++ " | Deposit: ₹" ++ formatComma pd.deposit_amount
      , "Preferred for: " ++ pd.preferred_tenants
      , "Available from: " ++ pd.available_from ]
  , seo_keywords :=
      [ bhk ++ " bhk " ++ city
      , locality ++ " rental"
      , prop_type ++ " for rent " ++ city
      , furnishing ++ " flat " ++ locality
      , "rent " ++ bhk ++ "bhk " ++ city ]
  , meta_title := bhk ++ " BHK " ++ prop_type ++ " for Rent in " ++ locality ++ ", " ++ city
  , meta_description := "Rent this spacious " ++ bhk ++ " BHK " ++ prop_type ++
      " in " ++ locality ++ ", " ++ city ++ ". " ++ area ++ " sqft, " ++
      furnishing ++ " furnished. ₹" ++ rent ++ "/month. Available now!" }

/-- Property fields as serialized into the JSON download document. -/
def propToJson (pd : PropertyRecord) : Json :=
  .obj
    [ ("property_type", .str pd.property_type)
    , ("bhk", .str pd.bhk)
    , ("area_sqft", .num pd.area_sqft)
    , ("city", .str pd.city)
    , ("locality", .str pd.locality)
    , ("landmark", .str pd.landmark)
    , ("floor_no", match pd.floor_no with | some n => .num n | none => .null)
    , ("total_floors", match pd.total_floors with | some n => .num n | none => .null)
    , ("furnishing_status", .str pd.furnishing_status)
    , ("rent_amount", .num pd.rent_amount)
    , ("deposit_amount", .num pd.deposit_amount)
    , ("available_from", .str pd.available_from)
    , ("preferred_tenants", .str pd.preferred_tenants)
    , ("amenities", .arr (pd.amenities.map Json.str))
    , ("rough_description", .str pd.rough_description) ]

/-- JSON export document: property details, generated content and the
1-based generation version counter, as assembled for the JSON download. -/
def exportDoc (pd : PropertyRecord) (r : ContentRecord) (generation_count : ℕ) : Json :=
  .obj
    [ ("property_details", propToJson pd)
    , ("generated_content", contentToJson r)
    , ("generation_version", .num (generation_count + 1)) ]

/-- Re-parsing of the export document down to its content record. -/
def parseExportContent (j : Json) : Option ContentRecord :=
  (jlookup j "generated_content").bind decodeContentJson

/-- Variation preset: one fixed (focus, tone, instruction) triple. -/
structure Variation where
  focus : String
  tone : String
  instruction : String
deriving DecidableEq

/-- The five fixed creative variation presets, in source order. -/
def variation_prompts : List Variation :=
  [ { focus := "lifestyle and experience"
    , tone := "aspirational and emotional"
    , instruction := "Focus on the lifestyle transformation and daily experiences this property offers. Paint a vivid picture of morning routines, evening relaxation, and the joy of living here." }
  , { focus := "investment value and practicality"
    , tone := "professional and value-driven"
    , instruction := "Emphasize the practical benefits, value for money, and smart investment aspects. Highlight cost savings, appreciation potential, and financial wisdom of this choice." }
  , { focus := "location benefits and connectivity"
    , tone := "convenience-focused and modern"
    , instruction := "Highlight the strategic location, connectivity advantages, and nearby conveniences. Focus on how this location saves time, offers accessibility, and enhances daily commute." }
  , { focus := "comfort and luxury features"
    , tone := "premium and sophisticated"
    , instruction := "Emphasize the premium features, comfort elements, and luxurious living experience. Use elegant language to describe the finer details and upscale amenities." }
  , { focus := "community and safety"
    , tone := "warm and family-oriented"
    , instruction := "Focus on the safe neighborhood, community aspects, and family-friendly environment. Highlight security features, neighbor relations, and child-friendly spaces." } ]

/-- Preset selection: variation_prompts indexed by seed modulo the list
length (which is 5). -/
def variation (variation_seed : ℕ) : Variation :=
  variation_prompts.getD (variation_seed % variation_prompts.length)
    { focus := "", tone := "", instruction := "" }

/-- Sampling temperature schedule of generate_with_groq, in exact rational
arithmetic: base 0.8 plus 0.05 per seed unit, wrapping to seed modulo 3 when
the raw value exceeds 1.0 strictly.  The branch decisions and the comparison
against 1.0 agree with Python float arithmetic at every seed. -/
def temperature (variation_seed : ℕ) : ℚ :=
  let t : ℚ := 0.8 + (variation_seed : ℚ) * 0.05
  if t > 1.0 then 0.8 + ((variation_seed % 3 : ℕ) : ℚ) * 0.05 else t

/-- Full location string: locality, city, then district, state and pincode
when non-empty. -/
def full_location (pd : PropertyRecord) : String :=
  pd.locality ++ ", " ++ pd.city ++
    (if pd.district = "" then "" else ", " ++ pd.district) ++
    (if pd.state = "" then "" else ", " ++ pd.state) ++
    (if pd.pincode = "" then "" else " - " ++ pd.pincode)

/-- Location details: the full location plus the landmark when non-empty. -/
def location_details (pd : PropertyRecord) : String :=
  full_location pd ++ (if pd.landmark = "" then "" else " (Near " ++ pd.landmark ++ ")")

/-- Floor info segment of the prompt.  The guard is Python truthiness of the
two values: a missing key, a None value or a zero value all suppress the
line. -/
def floor_info (pd : PropertyRecord) : String :=
  match pd.floor_no, pd.total_floors with
  | some fn, some tf =>
    if fn != 0 && tf != 0 then
      "\n- Floor: " ++ toString fn ++ " of " ++ toString tf ++ " floors"
    else ""
  | _, _ => ""

/-- Maintenance segment: rendered only for a strictly positive amount. -/
def maintenance_info (pd : PropertyRecord) : String :=
  if pd.maintenance ≠ 0 ∧ pd.maintenance > 0 then
    "\n- Maintenance: ₹" ++ toString pd.maintenance ++ "/month"
  else ""

/-- Water supply segment: rendered only when the joined list is non-empty. -/
def water_info (pd : PropertyRecord) : String :=
  let water_supply := String.intercalate ", " pd.water_supply
  if water_supply = "" then ""
  else "\n- Water Supply: " ++ water_supply ++ " (" ++ pd.water_availability ++ ")"

/-- Owner notes block, rendered only when the trimmed rough description is
non-empty. -/
def rough_desc_section (pd : PropertyRecord) : String :=
  let rough_desc := pyStripStr pd.rough_description
  if rough_desc = "" then ""
  else
    "\n\n**Owner\x27s Additional Notes/Description:**\n\"" ++ rough_desc ++
      "\"\n(IMPORTANT: Please incorporate these owner-provided details naturally and prominently into the description. These are unique selling points!)\n"

/-- Prompt text up to and including the area figure, ending right where the
floor info segment is spliced in. -/
def promptBeforeFloor (pd : PropertyRecord) : String :=
  "You are an expert real estate copywriter specializing in premium property listings that drive high engagement and conversions.\n\n" ++
  "Create a compelling, professional rental property listing for:\n\n" ++
  "**Property Details:**\n" ++
  "- Type: " ++ pd.bhk ++ " BHK " ++ pyTitle pd.property_type ++ "\n" ++
  "- Location: " ++ location_details pd ++ "\n" ++
  "- Area: " ++ toString pd.area_sqft ++ " square feet"

/-- Prompt text after the floor info segment: financial lines, amenity
lines, owner notes, creative direction, requirements and the JSON shape. -/
def promptAfterFloor (pd : PropertyRecord) (variation_seed : ℕ) : String :=
  let v := variation variation_seed
  let amenities :=
    if pd.amenities.isEmpty then "Standard amenities"
    else String.intercalate ", " pd.amenities
  let nearby := String.intercalate ", " pd.nearby_points
  "\n- Monthly Rent: ₹" ++ formatComma pd.rent_amount ++ "\n" ++
  "- Security Deposit: ₹" ++ formatComma pd.deposit_amount ++
  maintenance_info pd ++ water_info pd ++ "\n" ++
  "- Furnishing: " ++ pd.furnishing_status ++ " furnished\n" ++
  "- Amenities: " ++ amenities ++ "\n" ++
  "- Preferred Tenants: " ++ pd.preferred_tenants ++ "\n" ++
  "- Available From: " ++ pd.available_from ++ "\n" ++
  "- Nearby: " ++ (if nearby = "" then "Various conveniences" else nearby) ++ "\n" ++
  rough_desc_section pd ++
  "**CREATIVE DIRECTION FOR THIS VERSION (Version #" ++ toString (variation_seed + 1) ++ "):**\n" ++
  "- Primary Focus: " ++ v.focus ++ "\n" ++
  "- Tone: " ++ v.tone ++ "\n" ++
  "- Special Instruction: " ++ v.instruction ++ "\n\n" ++
  "**Requirements:**\n" ++
  "1. **Title**: Create an attention-grabbing, emotional title (8-12 words) that highlights the property\x27s unique value proposition and creates desire. Make it DIFFERENT from generic titles. DO NOT start with \"Discover\" or \"Welcome\".\n" ++
  "2. **Teaser**: Write a compelling hook (15-20 words) that creates urgency and paints a lifestyle picture\n" ++
  "3. **Full Description**: Craft a detailed, engaging description (150-200 words) that:\n" ++
  "   - Paints a vivid picture of living there\n" ++
  "   - Highlights lifestyle benefits, not just features\n" ++
  "   - Uses emotional, sensory language\n" ++
  "   - Emphasizes location advantages and convenience\n" ++
  "   - Creates FOMO (fear of missing out)\n" ++
  "   - Focuses on the experience and feelings\n" ++
  "   - Follows the creative direction provided above\n" ++
  "   - INCORPORATES any owner notes/rough description provided\n" ++
  "4. **Bullet Points**: 5 compelling features written as BENEFITS (not just specs). Focus on what the tenant gains. Make them unique and specific.\n" ++
  "5. **SEO Keywords**: 5 highly relevant, search-optimized keywords that people actually search for\n" ++
  "6. **Meta Title**: SEO-optimized title (under 60 chars) with primary keyword\n" ++
  "7. **Meta Description**: Compelling SEO description (under 160 chars) with call-to-action\n\n" ++
  "**Tone**: " ++ v.tone ++ ". Write like you\x27re selling a dream lifestyle, not just a property.\n\n" ++
  "**IMPORTANT - MAKE IT UNIQUE:**\n" ++
  "- Use varied vocabulary and expressions\n" ++
  "- Try different angles and perspectives  \n" ++
  "- Create original metaphors and descriptions\n" ++
  "- Avoid repetitive patterns\n" ++
  "- Each regeneration should feel fresh and different\n\n" ++
  "Return ONLY valid JSON (no markdown, no ```json):\n" ++
  "\x7b\n" ++
  "    \"title\": \"your captivating title here\",\n" ++
  "    \"teaser_text\": \"your compelling teaser here\",\n" ++
  "    \"full_description\": \"your detailed engaging description here\",\n" ++
  "    \"bullet_points\": [\"lifestyle benefit 1\", \"lifestyle benefit 2\", \"lifestyle benefit 3\", \"lifestyle benefit 4\", \"lifestyle benefit 5\"],\n" ++
  "    \"seo_keywords\": [\"keyword1\", \"keyword2\", \"keyword3\", \"keyword4\", \"keyword5\"],\n" ++
  "    \"meta_title\": \"your SEO meta title here\",\n" ++
  "    \"meta_description\": \"your SEO meta description with CTA here\"\n" ++
  "\x7d"

/-- The full user prompt built by generate_with_groq: the text before the
floor segment, the floor segment, and the remainder, concatenated exactly as
in the source f-string. -/
def groqPrompt (pd : PropertyRecord) (variation_seed : ℕ) : String :=
  promptBeforeFloor pd ++ floor_info pd ++ promptAfterFloor pd variation_seed


/-- Markdown fence cleaning applied to the message content before JSON
parsing: strip, then remove fence markers when the content starts with a
language-tagged or bare fence, then strip again. -/
def cleanContent (raw : Chars) : Chars :=
  if isPre ("```json".toList) (pyStrip raw) then
    pyStrip (pyRemove ("```".toList) (pyRemove ("```json".toList) (pyStrip raw)))
  else if isPre ("```".toList) (pyStrip raw) then
    pyStrip (pyRemove ("```".toList) (pyStrip raw))
  else pyStrip raw

/-- One remote response as seen by the retry loop of generate_with_groq. -/
inductive Resp where
  | ok (content : Chars)
  | rate429
  | unauthorized401
  | badRequest400
  | other (code : ℕ)
  | timeout

/-- Retry loop of generate_with_groq.  The environment gives the response of
each attempt; fuel counts the attempts still allowed.  The result pairs the
parsed content, when any, with the list of sleep durations performed.  A 200
response is parsed after fence cleaning and never retried, even on a parse
failure; 429 sleeps (attempt+1)*2 seconds and retries while attempts remain;
a timeout sleeps 2 seconds and retries while attempts remain; 401, 400 and
every other status give up immediately. -/
def groqRun (parse : Chars → Option Json) (env : ℕ → Resp) : ℕ → ℕ → Option Json × List ℕ
  | _, 0 => (none, [])
  | i, fuel + 1 =>
    match env i with
    | .ok raw => (parse (cleanContent raw), [])
    | .rate429 =>
      if fuel = 0 then (none, [])
      else
        let r := groqRun parse env (i + 1) fuel
        (r.1, (i + 1) * 2 :: r.2)
    | .timeout =>
      if fuel = 0 then (none, [])
      else
        let r := groqRun parse env (i + 1) fuel
        (r.1, 2 :: r.2)
    | _ => (none, [])

/-- generate_with_groq with the default retry budget of 3 attempts. -/
def generate_with_groq (parse : Chars → Option Json) (env : ℕ → Resp) :
    Option Json × List ℕ :=
  groqRun parse env 0 3

/-- generate_description: the orchestrator.  On the remote path it runs the
API client and keeps the remote result only when it is truthy; in every
other case it returns the fallback content. -/
def generate_description (useGroq : Bool) (parse : Chars → Option Json)
    (env : ℕ → Resp) (pd : PropertyRecord) : Json :=
  if useGroq then
    match (generate_with_groq parse env).1 with
    | some v => if jtruthy v then v else contentToJson (generate_fallback pd)
    | none => contentToJson (generate_fallback pd)
  else contentToJson (generate_fallback pd)

/-- Raw tabular cell value: a string, a numeric value, or a missing value
(NaN, also standing for an absent key in dict.get calls). -/
inductive Cell where
  | str (s : String)
  | num (q : ℚ)
  | nan
deriving DecidableEq

/-- Raw row: association of column names to cell values. -/
abbrev Row := List (String × Cell)

/-- Column access that may miss. -/
def lookupCell (row : Row) (f : String) : Option Cell := row.lookup f

/-- pd.notna: false exactly on missing values. -/
def notna : Cell → Bool
  | .nan => false
  | _ => true

/-- Python str() of a cell.  Numeric rendering is simplified to the decimal
form for integral values; no claim depends on the rendering of non-integral
numbers. -/
def pyStrCell : Cell → String
  | .str s => s
  | .num q => if q.den = 1 then toString q.num else toString q
  | .nan => "nan"

/-- Value of a nonempty all-digit character list. -/
def digitsVal (l : Chars) : Option ℕ :=
  if l = [] then none
  else if l.all Char.isDigit then
    some (l.foldl (fun n c => n * 10 + (c.toNat - 48)) 0)
  else none

/-- Model of Python float() on strings: optional sign, decimal digits with an
optional fractional part, and surrounding whitespace.  Exponent forms and
special values are out of the modelled fragment; every string outside the
fragment fails, as the failing strings of the claims do in Python. -/
def parseFloat (s : String) : Option ℚ :=
  let t := pyStrip s.toList
  let signed : ℚ × Chars :=
    match t with
    | '-' :: r => (-1, r)
    | '+' :: r => (1, r)
    | r => (1, r)
  match signed.2.splitOn '.' with
  | [w] => (digitsVal w).map (fun n => signed.1 * n)
  | [w, f] =>
    if w = [] ∧ f = [] then none
    else do
      let wv ← if w = [] then some 0 else digitsVal w
      let fv ← if f = [] then some 0 else digitsVal f
      pure (signed.1 * ((wv : ℚ) + (fv : ℚ) / ((10 : ℚ) ^ f.length)))
  | _ => none

/-- Python int() truncation toward zero of a rational. -/
def pyTrunc (q : ℚ) : Int := if 0 ≤ q then ⌊q⌋ else ⌈q⌉

/-- float(cell): numeric cells pass through, NaN stays NaN (no exception),
strings are parsed or raise ValueError. -/
def cellFloat : Cell → Except String (Option ℚ)
  | .num q => .ok (some q)
  | .nan => .ok none
  | .str s =>
    match parseFloat s with
    | some q => .ok (some q)
    | none => .error ("could not convert string to float: " ++ s)

/-- int(float(cell)): as cellFloat followed by truncation; a NaN value
raises at the int() step. -/
def cellInt (c : Cell) : Except String Int := do
  let oq ← cellFloat c
  match oq with
  | some q => pure (pyTrunc q)
  | none => .error "cannot convert float NaN to integer"

/-- Direct subscription row[f]: raises KeyError when the column is absent. -/
def getReq (row : Row) (f : String) : Except String Cell :=
  match lookupCell row f with
  | some c => .ok c
  | none => .error ("KeyError: " ++ f)

/-- row.get(f, ''): the empty string when the column is absent. -/
def getOptCell (row : Row) (f : String) : Cell :=
  (lookupCell row f).getD (.str "")

/-- Optional integer field: int(float(row[f])) when the value is present and
not NaN, None otherwise.  A present non-coercible value raises. -/
def getOptInt (row : Row) (f : String) : Except String (Option Int) :=
  match lookupCell row f with
  | some c => if notna c then (cellInt c).map some else pure none
  | none => pure none

/-- Amenity parsing: when the column is present with a non-NaN value, split
the string form on commas and trim each token; otherwise the empty list. -/
def rowAmenities (row : Row) : List String :=
  match lookupCell row "amenities" with
  | some c =>
    if notna c then (pySplitComma (pyStrCell c)).map pyStripStr else []
  | none => []

/-- available_from handling: default to the current date when absent, parse
string values with the datetime library (modelled by the parseDate
parameter, failure raising), pass other values through str(). -/
def rowAvailable (parseDate : String → Option String) (today : String) (row : Row) :
    Except String String :=
  match lookupCell row "available_from" with
  | none => .ok today
  | some (.str s) =>
    match parseDate s with
    | some d => .ok d
    | none => .error ("Unknown datetime string format: " ++ s)
  | some (.num q) => .ok (pyStrCell (.num q))
  | some .nan => .ok "nan"

/-- Normalized property record as produced by clean_and_process.  The two
monetary fields hold None exactly when the source float is NaN. -/
structure NormProperty where
  property_type : String
  bhk : String
  area_sqft : Int
  city : String
  locality : String
  landmark : String
  floor_no : Option Int
  total_floors : Option Int
  furnishing_status : String
  rent_amount : Option ℚ
  deposit_amount : Option ℚ
  available_from : String
  preferred_tenants : String
  amenities : List String
  rough_description : String
deriving DecidableEq

/-- Processing of one row inside the try block of clean_and_process,
evaluating the record fields in source order; the first raised exception
aborts the row with its message. -/
def processRow (parseDate : String → Option String) (today : String) (row : Row) :
    Except String NormProperty := do
  let amenities := rowAmenities row
  let available_from ← rowAvailable parseDate today row
  let c ← getReq row "property_type"
  let property_type := pyStripStr (pyLower (pyStrCell c))
  let c ← getReq row "bhk"
  let bhk := pyStripStr (pyStrCell c)
  let c ← getReq row "area_sqft"
  let area_sqft ← cellInt c
  let c ← getReq row "city"
  let city := pyStripStr (pyStrCell c)
  let c ← getReq row "locality"
  let locality := pyStripStr (pyStrCell c)
  let landmark := pyStripStr (pyStrCell (getOptCell row "landmark"))
  let floor_no ← getOptInt row "floor_no"
  let total_floors ← getOptInt row "total_floors"
  let c ← getReq row "furnishing_status"
  let furnishing_status := pyStripStr (pyLower (pyStrCell c))
  let c ← getReq row "rent_amount"
  let rent_amount ← cellFloat c
  let c ← getReq row "deposit_amount"
  let deposit_amount ← cellFloat c
  let c ← getReq row "preferred_tenants"
  let preferred_tenants := pyStripStr (pyStrCell c)
  let rough_description := pyStripStr (pyStrCell (getOptCell row "rough_description"))
  pure
    { property_type := property_type
    , bhk := bhk
    , area_sqft := area_sqft
    , city := city
    , locality := locality
    , landmark := landmark
    , floor_no := floor_no
    , total_floors := total_floors
    , furnishing_status := furnishing_status
    , rent_amount := rent_amount
    , deposit_amount := deposit_amount
    , available_from := available_from
    , preferred_tenants := preferred_tenants
    , amenities := amenities
    , rough_description := rough_description }

/-- Loop body of clean_and_process from row index idx onward: a successful
row appends its record, a failing row appends one error entry tagged with
the 1-based spreadsheet row number (index plus 2, accounting for the header
line), and processing always continues with the remaining rows. -/
def clean_and_process_aux (parseDate : String → Option String) (today : String) :
    ℕ → List Row → List NormProperty × List String
  | _, [] => ([], [])
  | idx, row :: rest =>
    let tail := clean_and_process_aux parseDate today (idx + 1) rest
    match processRow parseDate today row with
    | .ok p => (p :: tail.1, tail.2)
    | .error e => (tail.1, ("Row " ++ toString (idx + 2) ++ ": " ++ e) :: tail.2)

/-- InteractiveParser.clean_and_process: processes every row of the table
and returns the records and accumulated error entries. -/
def clean_and_process (parseDate : String → Option String) (today : String)
    (rows : List Row) : List NormProperty × List String :=
  clean_and_process_aux parseDate today 0 rows

lemma temperature_of_le_four {s : ℕ} (h : s ≤ 4) :
    temperature s = 0.8 + (s : ℚ) * 0.05 := by
  have h4 : (s : ℚ) ≤ 4 := by exact_mod_cast h
  have hc : ¬ ((0.8 : ℚ) + (s : ℚ) * 0.05 > 1.0) := by nlinarith
  simp only [temperature]
  rw [if_neg hc]

lemma temperature_of_ge_five {s : ℕ} (h : 5 ≤ s) :
    temperature s = 0.8 + ((s % 3 : ℕ) : ℚ) * 0.05 := by
  have h5 : (5 : ℚ) ≤ (s : ℚ) := by exact_mod_cast h
  have hc : (0.8 : ℚ) + (s : ℚ) * 0.05 > 1.0 := by nlinarith
  simp only [temperature]
  rw [if_pos hc]

/-- Claim C1 counterexample: at variation index 4 the computed temperature
is exactly 1, so it is not strictly below 1.  The raw value 0.8 + 4 * 0.05
equals 1 exactly (in IEEE doubles as well as in rationals), hence the
wraparound branch, which fires only strictly above 1, is not taken. -/
theorem temperature_counterexample :
    temperature 4 = 1 ∧ ¬ temperature 4 < 1 := by
  have h : temperature 4 = 1 := by norm_num [temperature]
  exact ⟨h, by rw [h]; exact lt_irrefl 1⟩

/-- Claim C1 (amended): for every non-negative variation index the sampling
temperature lies in [0.8, 1.0] and reaches 1.0 exactly at index 4; it equals
0.8 + index * 0.05 for indices up to 4 and wraps to
0.8 + (index mod 3) * 0.05 from index 5 onward. -/
theorem temperature_schedule (s : ℕ) :
    0.8 ≤ temperature s ∧ temperature s ≤ 1 ∧
    (temperature s = 1 ↔ s = 4) ∧
    (s ≤ 4 → temperature s = 0.8 + (s : ℚ) * 0.05) ∧
    (5 ≤ s → temperature s = 0.8 + ((s % 3 : ℕ) : ℚ) * 0.05) := by
  rcases le_or_lt s 4 with h | h
  · interval_cases s <;>
      refine ⟨?_, ?_, ?_, ?_, ?_⟩ <;> norm_num [temperature]
  · have h5 : 5 ≤ s := h
    have ht := temperature_of_ge_five h5
    have hm : s % 3 < 3 := Nat.mod_lt _ (by norm_num)
    have hmq : ((s % 3 : ℕ) : ℚ) ≤ 2 := by exact_mod_cast Nat.le_of_lt_succ hm
    have hmq0 : (0 : ℚ) ≤ ((s % 3 : ℕ) : ℚ) := by positivity
    refine ⟨?_, ?_, ⟨?_, ?_⟩, ?_, fun _ => ht⟩
    · rw [ht]; nlinarith
    · rw [ht]; nlinarith
    · intro h1
      rw [ht] at h1
      exfalso
      nlinarith
    · intro h4
      exact absurd h4 (by omega)
    · intro hle
      exact absurd hle (by omega)

/-- Claim C1 witness: the schedule theorem evaluated at indices 3 and 7. -/
theorem temperature_schedule_witness :
    temperature 3 = 0.8 + (3 : ℚ) * 0.05 ∧
    temperature 7 = 0.8 + ((7 % 3 : ℕ) : ℚ) * 0.05 :=
  ⟨(temperature_schedule 3).2.2.2.1 (by norm_num),
   (temperature_schedule 7).2.2.2.2 (by norm_num)⟩

/-- Claim C2: the fallback generator always produces exactly 5 bullet points
and exactly 5 SEO keywords, and as a pure function it is deterministic. -/
theorem generate_fallback_shape (pd : PropertyRecord) :
    (generate_fallback pd).bullet_points.length = 5 ∧
    (generate_fallback pd).seo_keywords.length = 5 ∧
    generate_fallback pd = generate_fallback pd :=
  ⟨rfl, rfl, rfl⟩

/-- Claim C3: when every attempt yields HTTP 429 with the default budget of
3 attempts, the client sleeps 2 seconds then 4 seconds, returns no content,
and the orchestrator returns the fallback content. -/
theorem rate_limit_retries (parse : Chars → Option Json) (pd : PropertyRecord) :
    generate_with_groq parse (fun _ => .rate429) = (none, [2, 4]) ∧
    generate_description true parse (fun _ => .rate429) pd =
      contentToJson (generate_fallback pd) :=
  ⟨rfl, rfl⟩

/-- Claim C8: the orchestrator returns the remote parsed value exactly when
that value is truthy, and otherwise returns the fallback content; an empty
JSON object is falsy and is therefore discarded. -/
theorem orchestrator_truthiness (parse : Chars → Option Json) (env : ℕ → Resp)
    (pd : PropertyRecord) (v : Json)
    (h : (generate_with_groq parse env).1 = some v) :
    generate_description true parse env pd =
      (if jtruthy v then v else contentToJson (generate_fallback pd)) ∧
    jtruthy (Json.obj []) = false := by
  constructor
  · simp [generate_description, h]
  · rfl

/-- Sample property record used to instantiate theorems with hypotheses. -/
def pdSample : PropertyRecord :=
  { property_type := "flat", bhk := "2 BHK", area_sqft := 1000, city := "Mumbai"
  , locality := "Andheri West", landmark := "", district := "", state := ""
  , pincode := "", floor_no := some 5, total_floors := some 10
  , furnishing_status := "semi-furnished", rent_amount := 30000
  , deposit_amount := 50000, available_from := "2024-01-15"
  , preferred_tenants := "Family", amenities := ["Lift", "Parking"]
  , rough_description := "", nearby_points := [], maintenance := 0
  , water_supply := [], water_availability := "" }

/-- Environment whose every response is HTTP 200 with the body of an empty
JSON object. -/
def envEmptyObj : ℕ → Resp := fun _ => .ok ['\x7b', '\x7d']

/-- Parse function recognizing exactly the empty JSON object. -/
def parseEmptyObj : Chars → Option Json :=
  fun l => if l = ['\x7b', '\x7d'] then some (.obj []) else none

/-- Claim C8 witness: with a remote result parsing to the empty object, the
orchestrator returns the fallback content for the sample record. -/
theorem orchestrator_truthiness_witness :
    generate_description true parseEmptyObj envEmptyObj pdSample =
      contentToJson (generate_fallback pdSample) := by
  have h : (generate_with_groq parseEmptyObj envEmptyObj).1 = some (Json.obj []) := rfl
  have hmain := (orchestrator_truthiness parseEmptyObj envEmptyObj pdSample (Json.obj []) h).1
  simpa [jtruthy] using hmain

lemma strListM_map (xs : List String) :
    strListM (xs.map Json.str) = some xs := by
  induction xs with
  | nil => rfl
  | cons a l ih => simp [strListM, asStr, ih]

/-- Claim C7: re-parsing the JSON export document recovers all 7 content
fields unchanged, and the document carries the 1-based generation version. -/
theorem export_roundtrip (pd : PropertyRecord) (r : ContentRecord) (n : ℕ) :
    parseExportContent (exportDoc pd r n) = some r ∧
    jlookup (exportDoc pd r n) "generation_version" = some (.num (n + 1)) := by
  obtain ⟨t, te, fd, bp, sk, mt, md⟩ := r
  refine ⟨?_, ?_⟩
  · simp [parseExportContent, exportDoc, jlookup, decodeContentJson, contentToJson,
      List.lookup, asStr, asStrList, strListM_map]
  · simp [exportDoc, jlookup, List.lookup]

lemma floor_line_ne_empty (fn tf : Int) :
    "\n- Floor: " ++ toString fn ++ " of " ++ toString tf ++ " floors" ≠ "" := by
  intro h
  have hlen := congrArg String.length h
  have ha : ("\n- Floor: " : String).length = 10 := rfl
  have hb : ("" : String).length = 0 := rfl
  simp only [String.length_append, ha, hb] at hlen
  omega

/-- Claim C5 (amended): the floor line appears in the prompt exactly when
both floor values are present and truthy (non-None and non-zero); the prompt
splits structurally around the floor segment. -/
theorem floor_line_truthiness (pd : PropertyRecord) (seed : ℕ) :
    groqPrompt pd seed = promptBeforeFloor pd ++ floor_info pd ++ promptAfterFloor pd seed ∧
    (floor_info pd = "" ↔
      ¬ (∃ fn tf, pd.floor_no = some fn ∧ pd.total_floors = some tf ∧ fn ≠ 0 ∧ tf ≠ 0)) ∧
    (∀ fn tf, pd.floor_no = some fn → pd.total_floors = some tf → fn ≠ 0 → tf ≠ 0 →
      floor_info pd = "\n- Floor: " ++ toString fn ++ " of " ++ toString tf ++ " floors") := by
  refine ⟨rfl, ?_, ?_⟩
  · cases hf : pd.floor_no with
    | none => simp [floor_info, hf]
    | some fn =>
      cases ht : pd.total_floors with
      | none => simp [floor_info, hf, ht]
      | some tf =>
        by_cases hfn : fn = 0
        · simp [floor_info, hf, ht, hfn]
        · by_cases htf : tf = 0
          · simp [floor_info, hf, ht, hfn, htf]
          · simp only [floor_info, hf, ht]
            rw [if_pos (by simp [hfn, htf])]
            simp [floor_line_ne_empty fn tf, hfn, htf]
  · intro fn tf hf ht hfn htf
    simp only [floor_info, hf, ht]
    rw [if_pos (by simp [hfn, htf])]

/-- Record whose floor number is present but zero (the ground floor offered
by the input form). -/
def pdGroundFloor : PropertyRecord := { pdSample with floor_no := some 0 }

set_option maxRecDepth 100000 in
/-- Claim C5 counterexample: with floor_no present but equal to 0 and
total_floors present, the floor line is omitted from the prompt. -/
theorem floor_line_counterexample :
    pdGroundFloor.floor_no.isSome = true ∧
    pdGroundFloor.total_floors.isSome = true ∧
    floor_info pdGroundFloor = "" ∧
    occursIn ("- Floor:".toList) ((groqPrompt pdGroundFloor 0).toList) = false := by
  refine ⟨rfl, rfl, rfl, ?_⟩
  decide

/-- Claim C5 witness: the truthiness theorem evaluated on the sample record
with floor 5 of 10. -/
theorem floor_line_truthiness_witness :
    floor_info pdSample =
      "\n- Floor: " ++ toString (5 : Int) ++ " of " ++ toString (10 : Int) ++ " floors" :=
  (floor_line_truthiness pdSample 0).2.2 5 10 rfl rfl (by decide) (by decide)

lemma isPre_append_self (p l : Chars) : isPre p (p ++ l) = true := by
  induction p with
  | nil => rfl
  | cons a ps ih => simp [isPre, ih]

lemma isPre_length_lt {p l : Chars} (h : l.length < p.length) : isPre p l = false := by
  induction p generalizing l with
  | nil => simp at h
  | cons a ps ih =>
    cases l with
    | nil => rfl
    | cons b bs =>
      have hlt : bs.length < ps.length := by
        simp only [List.length_cons] at h
        omega
      simp [isPre, ih hlt]

lemma isPre_append_left (p q l : Chars) : isPre (p ++ q) (p ++ l) = isPre q l := by
  induction p with
  | nil => rfl
  | cons a ps ih => simp [isPre, ih]

lemma isPre_append_ticks (p : Chars) :
    ∀ (l t : Chars), '`' ∉ p → (∀ d ∈ t, d = '`') → isPre p (l ++ t) = isPre p l := by
  induction p with
  | nil => intro l t _ _; simp [isPre]
  | cons a ps ih =>
    intro l t hp ht
    have ha : a ≠ '`' := fun h => hp (by simp [h])
    have hps : '`' ∉ ps := fun h => hp (List.mem_cons_of_mem _ h)
    cases l with
    | nil =>
      cases t with
      | nil => simp
      | cons d ds =>
        have hd : d = '`' := ht d (by simp)
        subst hd
        have hbeq : (a == '`') = false := beq_eq_false_iff_ne.mpr ha
        simp [isPre, hbeq]
    | cons b bs =>
      simp only [List.cons_append, isPre, List.append_eq]
      rw [ih bs t hps ht]

lemma occursIn_short (pat : Chars) :
    ∀ l : Chars, l.length < pat.length → occursIn pat l = false := by
  intro l
  induction l with
  | nil =>
    intro h
    cases pat with
    | nil => simp at h
    | cons a ps => rfl
  | cons c cs ih =>
    intro h
    have h2 : cs.length < pat.length := by
      simp only [List.length_cons] at h
      omega
    simp [occursIn, isPre_length_lt h, ih h2]

lemma occursIn_ticks_false (ps : Chars) :
    ∀ (inner tail : Chars), (∀ c ∈ inner, c ≠ '`') →
      occursIn ('`' :: ps) tail = false →
      occursIn ('`' :: ps) (inner ++ tail) = false := by
  intro inner
  induction inner with
  | nil => intro tail _ ht; simpa using ht
  | cons c cs ih =>
    intro tail h ht
    have hc : c ≠ '`' := h c (by simp)
    have hbeq : ('`' == c) = false := beq_eq_false_iff_ne.mpr (Ne.symm hc)
    simp only [List.cons_append, occursIn, isPre, hbeq, Bool.false_and, Bool.false_or]
    exact ih tail (fun x hx => h x (by simp [hx])) ht

lemma pyRemove_nil (pat : Chars) : pyRemove pat [] = [] := by
  simp [pyRemove]

lemma pyRemove_no_occurrence (pat : Chars) :
    ∀ l : Chars, occursIn pat l = false → pyRemove pat l = l := by
  intro l
  induction l with
  | nil => intro _; exact pyRemove_nil pat
  | cons c cs ih =>
    intro h
    simp only [occursIn, Bool.or_eq_false_iff] at h
    obtain ⟨h1, h2⟩ := h
    have hcond : ¬ (pat.length ≠ 0 ∧ isPre pat (c :: cs) = true) := by
      rintro ⟨-, hh⟩
      rw [h1] at hh
      exact Bool.noConfusion hh
    simp only [pyRemove]
    rw [if_neg hcond, ih h2]

lemma pyRemove_head (pat rest : Chars) (hp : pat ≠ []) :
    pyRemove pat (pat ++ rest) = pyRemove pat rest := by
  cases pat with
  | nil => exact absurd rfl hp
  | cons a ps =>
    have hpre : isPre (a :: ps) (a :: (ps ++ rest)) = true := by
      have := isPre_append_self (a :: ps) rest
      simpa using this
    have hcond : ((a :: ps).length ≠ 0 ∧ isPre (a :: ps) (a :: (ps ++ rest)) = true) :=
      ⟨by simp, hpre⟩
    show pyRemove (a :: ps) (a :: (ps ++ rest)) = pyRemove (a :: ps) rest
    simp only [pyRemove]
    rw [if_pos hcond]
    have hlen : (a :: ps).length - 1 = ps.length := by simp
    rw [hlen, List.drop_left]

lemma pyRemove_wrap (ps : Chars) :
    ∀ inner : Chars, (∀ c ∈ inner, c ≠ '`') →
      pyRemove ('`' :: ps) (inner ++ ('`' :: ps)) = inner := by
  intro inner
  induction inner with
  | nil =>
    intro _
    have h := pyRemove_head ('`' :: ps) [] (by simp)
    rw [List.append_nil] at h
    simpa [pyRemove_nil] using h
  | cons c cs ih =>
    intro h
    have hc : c ≠ '`' := h c (by simp)
    have hbeq : ('`' == c) = false := beq_eq_false_iff_ne.mpr (Ne.symm hc)
    have hpre : isPre ('`' :: ps) (c :: (cs ++ '`' :: ps)) = false := by
      simp [isPre, hbeq]
    have hcond : ¬ (('`' :: ps).length ≠ 0 ∧ isPre ('`' :: ps) (c :: (cs ++ '`' :: ps)) = true) := by
      rintro ⟨-, hh⟩
      rw [hpre] at hh
      exact Bool.noConfusion hh
    show pyRemove ('`' :: ps) (c :: (cs ++ '`' :: ps)) = c :: cs
    simp only [pyRemove]
    rw [if_neg hcond, ih (fun x hx => h x (by simp [hx]))]

lemma pyStrip_of_ends (a b : Char) (m : Chars) (ha : a.isWhitespace = false)
    (hb : b.isWhitespace = false) :
    pyStrip (a :: (m ++ [b])) = a :: (m ++ [b]) := by
  have h1 : List.dropWhile Char.isWhitespace (a :: (m ++ [b])) = a :: (m ++ [b]) := by
    simp [List.dropWhile_cons, ha]
  have h2 : (a :: (m ++ [b])).reverse = b :: (m.reverse ++ [a]) := by
    simp [List.reverse_cons, List.reverse_append]
  have h3 : List.dropWhile Char.isWhitespace (b :: (m.reverse ++ [a])) =
      b :: (m.reverse ++ [a]) := by
    simp [List.dropWhile_cons, hb]
  simp [pyStrip, h1, h2, h3, List.reverse_cons, List.reverse_append]

lemma fenced_json_shape (inner : Chars) :
    "```json".toList ++ inner ++ "```".toList =
      '`' :: (("``json".toList ++ inner ++ "``".toList) ++ ['`']) := by
  show ('`' :: "``json".toList) ++ inner ++ ("``".toList ++ ['`']) = _
  simp [List.cons_append, List.append_assoc]

lemma fenced_bare_shape (inner : Chars) :
    "```".toList ++ inner ++ "```".toList =
      '`' :: (("``".toList ++ inner ++ "``".toList) ++ ['`']) := by
  show ('`' :: "``".toList) ++ inner ++ ("``".toList ++ ['`']) = _
  simp [List.cons_append, List.append_assoc]

lemma pyStrip_fenced_json (inner : Chars) :
    pyStrip ("```json".toList ++ inner ++ "```".toList) =
      "```json".toList ++ inner ++ "```".toList := by
  rw [fenced_json_shape]
  exact pyStrip_of_ends '`' '`' _ rfl rfl

lemma pyStrip_fenced_bare (inner : Chars) :
    pyStrip ("```".toList ++ inner ++ "```".toList) =
      "```".toList ++ inner ++ "```".toList := by
  rw [fenced_bare_shape]
  exact pyStrip_of_ends '`' '`' _ rfl rfl

lemma pyRemove_ticks_wrap (inner : Chars) (htick : ∀ c ∈ inner, c ≠ '`') :
    pyRemove ("```".toList) (inner ++ "```".toList) = inner := by
  show pyRemove ('`' :: "``".toList) (inner ++ ('`' :: "``".toList)) = inner
  exact pyRemove_wrap _ inner htick

lemma groqRun_ok (parse : Chars → Option Json) (env : ℕ → Resp) (i fuel : ℕ)
    (raw : Chars) (h : env i = .ok raw) :
    groqRun parse env i (fuel + 1) = (parse (cleanContent raw), []) := by
  simp [groqRun, h]

/-- Claim C6: a message content wrapped in a language-tagged or bare
markdown fence (and free of stray backticks) is reduced to its stripped
inner text before JSON parsing; a parse failure ends the call with no
content and no retry, a parse success returns the parsed value. -/
theorem fence_stripping (parse : Chars → Option Json) (env : ℕ → Resp) (inner : Chars)
    (htick : ∀ c ∈ inner, c ≠ '`')
    (hjson : isPre ("json".toList) inner = false) :
    cleanContent ("```json".toList ++ inner ++ "```".toList) = pyStrip inner ∧
    cleanContent ("```".toList ++ inner ++ "```".toList) = pyStrip inner ∧
    (∀ raw, env 0 = .ok raw → parse (cleanContent raw) = none →
      generate_with_groq parse env = (none, [])) ∧
    (∀ raw v, env 0 = .ok raw → parse (cleanContent raw) = some v →
      generate_with_groq parse env = (some v, [])) := by
  have hA : cleanContent ("```json".toList ++ inner ++ "```".toList) = pyStrip inner := by
    have hc1 : isPre ("```json".toList) ("```json".toList ++ inner ++ "```".toList) = true := by
      rw [List.append_assoc]
      exact isPre_append_self _ _
    have hr1 : pyRemove ("```json".toList) ("```json".toList ++ inner ++ "```".toList) =
        inner ++ "```".toList := by
      rw [List.append_assoc, pyRemove_head _ _ (by decide)]
      apply pyRemove_no_occurrence
      show occursIn ('`' :: "``json".toList) (inner ++ "```".toList) = false
      exact occursIn_ticks_false _ inner _ htick (occursIn_short _ _ (by decide))
    simp only [cleanContent, pyStrip_fenced_json inner, hc1, if_true]
    rw [hr1, pyRemove_ticks_wrap inner htick]
  have hB : cleanContent ("```".toList ++ inner ++ "```".toList) = pyStrip inner := by
    have hc0 : isPre ("```json".toList) ("```".toList ++ inner ++ "```".toList) = false := by
      rw [List.append_assoc]
      show isPre ("```".toList ++ "json".toList) ("```".toList ++ (inner ++ "```".toList)) = false
      rw [isPre_append_left]
      rw [isPre_append_ticks ("json".toList) inner ("```".toList) (by decide) (by decide)]
      exact hjson
    have hc2 : isPre ("```".toList) ("```".toList ++ inner ++ "```".toList) = true := by
      rw [List.append_assoc]
      exact isPre_append_self _ _
    have hr : pyRemove ("```".toList) ("```".toList ++ inner ++ "```".toList) = inner := by
      rw [List.append_assoc, pyRemove_head _ _ (by decide)]
      exact pyRemove_ticks_wrap inner htick
    simp only [cleanContent, pyStrip_fenced_bare inner, hc0, hc2, if_true, Bool.false_eq_true,
      if_false]
    rw [hr]
  refine ⟨hA, hB, ?_, ?_⟩
  · intro raw henv hparse
    have h1 : generate_with_groq parse env = groqRun parse env 0 (2 + 1) := rfl
    rw [h1, groqRun_ok parse env 0 2 raw henv, hparse]
  · intro raw v henv hparse
    have h1 : generate_with_groq parse env = groqRun parse env 0 (2 + 1) := rfl
    rw [h1, groqRun_ok parse env 0 2 raw henv, hparse]

/-- Environment whose every response is HTTP 200 with an empty JSON object
wrapped in a language-tagged markdown fence. -/
def envFenced : ℕ → Resp :=
  fun _ => .ok ("```json".toList ++ ['\x7b', '\x7d'] ++ "```".toList)

/-- Environment whose every response is HTTP 200 with non-JSON text. -/
def envBadContent : ℕ → Resp := fun _ => .ok ("not json".toList)

/-- Claim C6 witness: the fence theorem evaluated on a fenced empty object
(stripped and parsed, returned with no retry) and on unparseable content
(no content, no retry). -/
theorem fence_stripping_witness :
    cleanContent ("```json".toList ++ ['\x7b', '\x7d'] ++ "```".toList) =
      pyStrip ['\x7b', '\x7d'] ∧
    generate_with_groq parseEmptyObj envFenced = (some (Json.obj []), []) ∧
    generate_with_groq parseEmptyObj envBadContent = (none, []) := by
  have H := fence_stripping parseEmptyObj envFenced ['\x7b', '\x7d'] (by decide) (by decide)
  have H2 := fence_stripping parseEmptyObj envBadContent ['\x7b', '\x7d'] (by decide) (by decide)
  refine ⟨H.1, ?_, ?_⟩
  · refine H.2.2.2 ("```json".toList ++ ['\x7b', '\x7d'] ++ "```".toList) (Json.obj []) rfl ?_
    rw [H.1]
    rfl
  · exact H2.2.2.1 ("not json".toList) rfl rfl

/-- The fields clean_and_process reads by direct subscription: their absence
raises KeyError and aborts the row. -/
def requiredFields : List String :=
  [ "property_type", "bhk", "area_sqft", "city", "locality"
  , "furnishing_status", "rent_amount", "deposit_amount", "preferred_tenants" ]

/-- Success test for float(cell). -/
def cellFloatOk (c : Cell) : Bool :=
  match cellFloat c with
  | .ok _ => true
  | .error _ => false

/-- Success test for int(float(cell)). -/
def cellIntOk (c : Cell) : Bool :=
  match cellInt c with
  | .ok _ => true
  | .error _ => false

/-- Success test for the optional integer fields. -/
def optIntOk (o : Option Cell) : Bool :=
  match o with
  | some c => !notna c || cellIntOk c
  | none => true

/-- Success test for the available_from value. -/
def dateOk (parseDate : String → Option String) : Option Cell → Bool
  | some (.str s) => (parseDate s).isSome
  | _ => true

/-- A row on which every step of processRow succeeds: required fields
present, numeric required fields coercible, optional integer fields
coercible when present and non-missing, and a present date string
parseable. -/
def rowOk (parseDate : String → Option String) (row : Row) : Prop :=
  requiredFields.all (fun f => (lookupCell row f).isSome) = true ∧
  (match lookupCell row "area_sqft" with
   | some c => cellIntOk c
   | none => true) = true ∧
  (match lookupCell row "rent_amount" with
   | some c => cellFloatOk c
   | none => true) = true ∧
  (match lookupCell row "deposit_amount" with
   | some c => cellFloatOk c
   | none => true) = true ∧
  optIntOk (lookupCell row "floor_no") = true ∧
  optIntOk (lookupCell row "total_floors") = true ∧
  dateOk parseDate (lookupCell row "available_from") = true

lemma cellIntOk_exists {c : Cell} (h : cellIntOk c = true) : ∃ n, cellInt c = .ok n := by
  cases hc : cellInt c with
  | ok n => exact ⟨n, rfl⟩
  | error e => simp [cellIntOk, hc] at h

lemma cellFloatOk_exists {c : Cell} (h : cellFloatOk c = true) :
    ∃ oq, cellFloat c = .ok oq := by
  cases hc : cellFloat c with
  | ok oq => exact ⟨oq, rfl⟩
  | error e => simp [cellFloatOk, hc] at h

lemma getOptInt_ok {row : Row} {f : String} (h : optIntOk (lookupCell row f) = true) :
    ∃ o, getOptInt row f = .ok o := by
  unfold getOptInt
  cases hl : lookupCell row f with
  | none => exact ⟨none, rfl⟩
  | some c =>
    by_cases hn : notna c = true
    · have hik : cellIntOk c = true := by
        rw [hl] at h
        simp [optIntOk, hn] at h
        exact h
      obtain ⟨n, hcn⟩ := cellIntOk_exists hik
      exact ⟨some n, by simp [hn, hcn, Except.map]⟩
    · have hn' : notna c = false := by
        revert hn
        cases notna c <;> simp
      exact ⟨none, by simp [hn', pure, Except.pure]⟩

lemma rowAvailable_ok {parseDate : String → Option String} {today : String} {row : Row}
    (h : dateOk parseDate (lookupCell row "available_from") = true) :
    ∃ s, rowAvailable parseDate today row = .ok s := by
  unfold rowAvailable
  cases hl : lookupCell row "available_from" with
  | none => exact ⟨today, rfl⟩
  | some c =>
    cases c with
    | str s =>
      have hs : (parseDate s).isSome = true := by
        rw [hl] at h
        simpa [dateOk] using h
      obtain ⟨d, hd⟩ := Option.isSome_iff_exists.mp hs
      exact ⟨d, by simp [hd]⟩
    | num q => exact ⟨_, rfl⟩
    | nan => exact ⟨_, rfl⟩

lemma processRow_ok_of_rowOk (parseDate : String → Option String) (today : String)
    (row : Row) (h : rowOk parseDate row) :
    ∃ p, processRow parseDate today row = .ok p := by
  obtain ⟨hall, harea, hrent, hdep, hfl, htl, hdate⟩ := h
  have hmem : ∀ f ∈ requiredFields, (lookupCell row f).isSome = true :=
    List.all_eq_true.mp hall
  obtain ⟨c1, h1⟩ := Option.isSome_iff_exists.mp (hmem "property_type" (by simp [requiredFields]))
  obtain ⟨c2, h2⟩ := Option.isSome_iff_exists.mp (hmem "bhk" (by simp [requiredFields]))
  obtain ⟨c3, h3⟩ := Option.isSome_iff_exists.mp (hmem "area_sqft" (by simp [requiredFields]))
  obtain ⟨c4, h4⟩ := Option.isSome_iff_exists.mp (hmem "city" (by simp [requiredFields]))
  obtain ⟨c5, h5⟩ := Option.isSome_iff_exists.mp (hmem "locality" (by simp [requiredFields]))
  obtain ⟨c6, h6⟩ := Option.isSome_iff_exists.mp (hmem "furnishing_status" (by simp [requiredFields]))
  obtain ⟨c7, h7⟩ := Option.isSome_iff_exists.mp (hmem "rent_amount" (by simp [requiredFields]))
  obtain ⟨c8, h8⟩ := Option.isSome_iff_exists.mp (hmem "deposit_amount" (by simp [requiredFields]))
  obtain ⟨c9, h9⟩ := Option.isSome_iff_exists.mp (hmem "preferred_tenants" (by simp [requiredFields]))
  obtain ⟨av, hav⟩ := @rowAvailable_ok parseDate today row hdate
  have harea' : cellIntOk c3 = true := by rw [h3] at harea; simpa using harea
  obtain ⟨n3, hn3⟩ := cellIntOk_exists harea'
  have hrent' : cellFloatOk c7 = true := by rw [h7] at hrent; simpa using hrent
  obtain ⟨q7, hq7⟩ := cellFloatOk_exists hrent'
  have hdep' : cellFloatOk c8 = true := by rw [h8] at hdep; simpa using hdep
  obtain ⟨q8, hq8⟩ := cellFloatOk_exists hdep'
  obtain ⟨o1, ho1⟩ := @getOptInt_ok row "floor_no" hfl
  obtain ⟨o2, ho2⟩ := @getOptInt_ok row "total_floors" htl
  cases hres : processRow parseDate today row with
  | ok p => exact ⟨p, rfl⟩
  | error e =>
    exfalso
    simp only [processRow, bind, Except.bind, pure, Except.pure, getReq,
      hav, h1, h2, h3, h4, h5, h6, h7, h8, h9, hn3, hq7, hq8, ho1, ho2] at hres
    exact Except.noConfusion hres

lemma processRow_error_of_missing (parseDate : String → Option String) (today : String)
    (row : Row) (h : ∃ f ∈ requiredFields, lookupCell row f = none) :
    ∃ e, processRow parseDate today row = .error e := by
  cases hres : processRow parseDate today row with
  | error e => exact ⟨e, rfl⟩
  | ok p =>
    exfalso
    obtain ⟨f, hf, hnone⟩ := h
    fin_cases hf <;>
      · simp only [processRow, bind, Except.bind, pure, Except.pure] at hres
        repeat' split at hres
        all_goals simp_all [getReq]

lemma processRow_ok_amenities (parseDate : String → Option String) (today : String)
    (row : Row) (p : NormProperty)
    (h : processRow parseDate today row = .ok p) :
    p.amenities = rowAmenities row := by
  simp only [processRow, bind, Except.bind, pure, Except.pure] at h
  repeat' split at h
  all_goals try exact Except.noConfusion h
  all_goals
    injection h with h2
    subst h2
    rfl

/-- Claim C4 (amended): a row missing a required field yields an error; a
row satisfying rowOk (required fields present and coercible, and the
optional floor, total-floor and date values coercible when present) yields a
record; and each row contributes its own record or its own tagged error
entry independently of the rest of the batch. -/
theorem clean_rows_independent (parseDate : String → Option String) (today : String) :
    (∀ row : Row, (∃ f ∈ requiredFields, lookupCell row f = none) →
      ∃ e, processRow parseDate today row = .error e) ∧
    (∀ row : Row, rowOk parseDate row → ∃ p, processRow parseDate today row = .ok p) ∧
    (∀ (idx : ℕ) (row : Row) (rest : List Row) (p : NormProperty),
      processRow parseDate today row = .ok p →
      clean_and_process_aux parseDate today idx (row :: rest) =
        (p :: (clean_and_process_aux parseDate today (idx + 1) rest).1,
         (clean_and_process_aux parseDate today (idx + 1) rest).2)) ∧
    (∀ (idx : ℕ) (row : Row) (rest : List Row) (e : String),
      processRow parseDate today row = .error e →
      clean_and_process_aux parseDate today idx (row :: rest) =
        ((clean_and_process_aux parseDate today (idx + 1) rest).1,
         ("Row " ++ toString (idx + 2) ++ ": " ++ e) ::
           (clean_and_process_aux parseDate today (idx + 1) rest).2)) := by
  refine ⟨processRow_error_of_missing parseDate today,
    processRow_ok_of_rowOk parseDate today, ?_, ?_⟩
  · intro idx row rest p hp
    simp [clean_and_process_aux, hp]
  · intro idx row rest e he
    simp [clean_and_process_aux, he]

/-- Date parser model accepting the single ISO date used by the concrete
rows below. -/
def parseDateIso : String → Option String :=
  fun s => if s = "2024-01-15" then some "2024-01-15" else none

/-- A row with every required field present and coercible. -/
def goodRow : Row :=
  [ ("property_type", .str "Flat"), ("bhk", .str "2 BHK"), ("area_sqft", .num 1000)
  , ("city", .str "Mumbai"), ("locality", .str "Andheri West")
  , ("furnishing_status", .str "Semi-Furnished"), ("rent_amount", .num 30000)
  , ("deposit_amount", .num 50000), ("preferred_tenants", .str "Family")
  , ("available_from", .str "2024-01-15"), ("amenities", .str "Lift, Parking") ]

/-- goodRow with the required city column removed. -/
def missingCityRow : Row :=
  [ ("property_type", .str "Flat"), ("bhk", .str "2 BHK"), ("area_sqft", .num 1000)
  , ("locality", .str "Andheri West"), ("furnishing_status", .str "Semi-Furnished")
  , ("rent_amount", .num 30000), ("deposit_amount", .num 50000)
  , ("preferred_tenants", .str "Family"), ("available_from", .str "2024-01-15") ]

/-- goodRow extended with a present but non-coercible optional floor_no. -/
def badFloorRow : Row := goodRow ++ [("floor_no", .str "abc")]

/-- Claim C4 counterexample: every required field of badFloorRow is present
and coercible, yet the row yields zero records and one error, because the
optional floor_no value fails coercion and aborts the row. -/
theorem optional_field_aborts_row :
    (requiredFields.all (fun f => (lookupCell badFloorRow f).isSome)) = true ∧
    cellIntOk (.num 1000) = true ∧
    cellFloatOk (.num 30000) = true ∧
    cellFloatOk (.num 50000) = true ∧
    dateOk parseDateIso (lookupCell badFloorRow "available_from") = true ∧
    clean_and_process parseDateIso "2024-06-01" [badFloorRow] =
      ([], ["Row 2: could not convert string to float: abc"]) := by
  refine ⟨by decide, by decide, by decide, by decide, by decide, ?_⟩
  decide

/-- Claim C4 witness: the amended theorem evaluated on a batch of a failing
row followed by a successful row. -/
theorem clean_rows_independent_witness :
    (∃ e, processRow parseDateIso "2024-06-01" missingCityRow = .error e) ∧
    (∃ p, processRow parseDateIso "2024-06-01" goodRow = .ok p ∧
      clean_and_process_aux parseDateIso "2024-06-01" 0 [goodRow] =
        (p :: (clean_and_process_aux parseDateIso "2024-06-01" 1 []).1,
         (clean_and_process_aux parseDateIso "2024-06-01" 1 []).2)) ∧
    clean_and_process parseDateIso "2024-06-01" [missingCityRow, goodRow] =
      ((clean_and_process_aux parseDateIso "2024-06-01" 1 [goodRow]).1,
       "Row 2: KeyError: city" ::
         (clean_and_process_aux parseDateIso "2024-06-01" 1 [goodRow]).2) := by
  have H := clean_rows_independent parseDateIso "2024-06-01"
  obtain ⟨p, hp⟩ := H.2.1 goodRow
    ⟨by decide, by decide, by decide, by decide, by decide, by decide, by decide⟩
  refine ⟨H.1 missingCityRow ⟨"city", by decide, by decide⟩,
    ⟨p, hp, H.2.2.1 0 goodRow [] p hp⟩, ?_⟩
  have he : processRow parseDateIso "2024-06-01" missingCityRow =
      .error "KeyError: city" := by rfl
  exact H.2.2.2 0 missingCityRow [goodRow] "KeyError: city" he

lemma map_pyStripStr_getD (l : List String) :
    ∀ i : ℕ, (l.map pyStripStr).getD i "" = pyStripStr (l.getD i "") := by
  induction l with
  | nil =>
    intro i
    show ("" : String) = pyStripStr ""
    rfl
  | cons a l ih =>
    intro i
    cases i with
    | zero => rfl
    | succ n =>
      simp only [List.map_cons, List.getD_cons_succ]
      exact ih n

/-- Claim C9: when the amenities cell holds a string, the produced record
splits it at every comma, trims each token, preserves empty tokens and the
token order; positionally the i-th amenity is the trimmed i-th token. -/
theorem amenities_tokens (parseDate : String → Option String) (today : String)
    (row : Row) (s : String) (p : NormProperty)
    (hcell : lookupCell row "amenities" = some (.str s))
    (hok : processRow parseDate today row = .ok p) :
    p.amenities = (pySplitComma s).map pyStripStr ∧
    p.amenities.length = (pySplitComma s).length ∧
    (∀ i : ℕ, p.amenities.getD i "" = pyStripStr ((pySplitComma s).getD i "")) := by
  have hA : p.amenities = (pySplitComma s).map pyStripStr := by
    rw [processRow_ok_amenities parseDate today row p hok]
    simp [rowAmenities, hcell, notna, pyStrCell]
  refine ⟨hA, by rw [hA]; simp, ?_⟩
  intro i
  rw [hA]
  exact map_pyStripStr_getD (pySplitComma s) i

/-- goodRow with an amenities string holding consecutive commas and spaced
tokens, and no available_from column. -/
def amRow : Row :=
  [ ("property_type", .str "Flat"), ("bhk", .str "2 BHK"), ("area_sqft", .num 1000)
  , ("city", .str "Mumbai"), ("locality", .str "Andheri West")
  , ("furnishing_status", .str "Semi-Furnished"), ("rent_amount", .num 30000)
  , ("deposit_amount", .num 50000), ("preferred_tenants", .str "Family")
  , ("amenities", .str " a ,, b") ]

/-- Normalized record produced for amRow. -/
def amRec : NormProperty :=
  { property_type := "flat", bhk := "2 BHK", area_sqft := 1000, city := "Mumbai"
  , locality := "Andheri West", landmark := "", floor_no := none, total_floors := none
  , furnishing_status := "semi-furnished", rent_amount := some 30000
  , deposit_amount := some 50000, available_from := "2024-06-01"
  , preferred_tenants := "Family", amenities := ["a", "", "b"]
  , rough_description := "" }

/-- Claim C9 witness: the token theorem evaluated on an amenities string
with a doubled comma, producing an empty middle token. -/
theorem amenities_tokens_witness :
    processRow parseDateIso "2024-06-01" amRow = .ok amRec ∧
    amRec.amenities = (pySplitComma " a ,, b").map pyStripStr ∧
    (pySplitComma " a ,, b").map pyStripStr = ["a", "", "b"] := by
  have hok : processRow parseDateIso "2024-06-01" amRow = .ok amRec := by rfl
  exact ⟨hok,
    (amenities_tokens parseDateIso "2024-06-01" amRow " a ,, b" amRec rfl hok).1,
    by decide⟩

lemma clean_aux_errors (parseDate : String → Option String) (today : String) :
    ∀ (rows : List Row) (k : ℕ),
      (clean_and_process_aux parseDate today k rows).2 =
        (rows.enumFrom k).filterMap (fun pr =>
          match processRow parseDate today pr.2 with
          | .ok _ => none
          | .error e => some ("Row " ++ toString (pr.1 + 2) ++ ": " ++ e)) := by
  intro rows
  induction rows with
  | nil => intro k; rfl
  | cons row rest ih =>
    intro k
    cases hres : processRow parseDate today row with
    | ok p =>
      simp [clean_and_process_aux, List.enumFrom, List.filterMap_cons, hres, ih]
    | error e =>
      simp [clean_and_process_aux, List.enumFrom, List.filterMap_cons, hres, ih]

/-- Claim C10: the error list of clean_and_process consists exactly of the
failing rows in order, each entry formed as "Row (i+2): message" from the
zero-based row position i; in particular a failing row at position i
contributes that entry. -/
theorem error_row_position (parseDate : String → Option String) (today : String)
    (rows : List Row) :
    (clean_and_process parseDate today rows).2 =
      (rows.enum.filterMap (fun pr =>
        match processRow parseDate today pr.2 with
        | .ok _ => none
        | .error e => some ("Row " ++ toString (pr.1 + 2) ++ ": " ++ e))) ∧
    (∀ (i : ℕ) (row : Row) (e : String), rows.get? i = some row →
      processRow parseDate today row = .error e →
      ("Row " ++ toString (i + 2) ++ ": " ++ e) ∈ (clean_and_process parseDate today rows).2) := by
  have hchar := clean_aux_errors parseDate today rows 0
  constructor
  · exact hchar
  · intro i row e hget herr
    show _ ∈ (clean_and_process_aux parseDate today 0 rows).2
    rw [hchar]
    apply List.mem_filterMap.mpr
    refine ⟨(i, row), ?_, ?_⟩
    · apply List.get?_mem (n := i)
      rw [List.get?_enumFrom, hget]
      simp
    · rw [herr]
  

/-- Claim C10 witness: the position theorem evaluated on a batch whose
second row (zero-based position 1) fails, contributing an entry for
spreadsheet row 3. -/
theorem error_row_position_witness :
    "Row 3: KeyError: city" ∈
      (clean_and_process parseDateIso "2024-01-15" [goodRow, missingCityRow]).2 := by
  have h := (error_row_position parseDateIso "2024-01-15" [goodRow, missingCityRow]).2
    1 missingCityRow "KeyError: city" rfl (by rfl)
  exact h
